import Mathlib

set_option maxHeartbeats 1000000
set_option maxRecDepth 8192

/-!
Verification development for the mcp25xx CAN controller driver.

The driver (src/lib.rs) talks to the chip over a chip-select-framed SPI bus.
We embed the bus traffic as a trace of events, model the transport as an
oracle that decides, per bus operation, whether it fails and which bytes are
received on a full-duplex transfer, and translate each driver operation into
an explicit state-passing function that mirrors the Rust source line by line
(the `?` early-return operator becomes a match on `Except`).
-/

/-- A bus-level event: assert chip-select, release chip-select, a half-duplex
write of a byte sequence, or a full-duplex transfer of a given length. -/
inductive Ev : Type
  | csLow : Ev
  | csHigh : Ev
  | write : List Nat → Ev
  | transfer : Nat → Ev
  deriving Repr, DecidableEq

/-- The external serial transport, modelled as an oracle: `err k` decides
whether the k-th bus operation (write or transfer) fails and with which
transport error, and `rx k j` is the j-th byte received on the k-th bus
operation when it is a full-duplex transfer. -/
structure SpiBus (ε : Type) : Type where
  err : Nat → Option ε
  rx : Nat → Nat → Nat

/-- Driver-visible bus state: the trace of events so far, the index of the
next bus operation, and whether chip-select is currently asserted. -/
structure SpiSt : Type where
  trace : List Ev
  idx : Nat
  cs : Bool
  deriving Repr, DecidableEq

/-- The shape of an embedded driver operation: given the transport oracle and
the current bus state it returns the Rust function's `Result` together with
the updated bus state. -/
abbrev Run (ε α : Type) : Type := SpiBus ε → SpiSt → Except ε α × SpiSt

/-- Embeds `set_cs_low` (infallible in the source: called without `?`). -/
def stCsLow (s : SpiSt) : SpiSt :=
  { s with cs := true, trace := s.trace ++ [Ev.csLow] }

/-- Embeds `set_cs_high` (infallible in the source: called without `?`). -/
def stCsHigh (s : SpiSt) : SpiSt :=
  { s with cs := false, trace := s.trace ++ [Ev.csHigh] }

/-- Embeds `spi_write`: consumes one bus operation; on transport failure the
error is returned and no event is recorded. -/
def spiWrite (bytes : List Nat) : Run ε Unit := fun t s =>
  match t.err s.idx with
  | some e => (Except.error e, { s with idx := s.idx + 1 })
  | none =>
      (Except.ok (), { s with idx := s.idx + 1, trace := s.trace ++ [Ev.write bytes] })

/-- Embeds `spi_transfer` on a buffer of length `n`: consumes one bus
operation and returns the `n` bytes the transport supplies. -/
def spiTransfer (n : Nat) : Run ε (List Nat) := fun t s =>
  match t.err s.idx with
  | some e => (Except.error e, { s with idx := s.idx + 1 })
  | none =>
      (Except.ok ((List.range n).map (t.rx s.idx)),
        { s with idx := s.idx + 1, trace := s.trace ++ [Ev.transfer n] })

/-- Embeds the `?`-style sequencing of two fallible steps: if the first step
returns a transport error it is propagated and the second step never runs. -/
def andThen (run₁ : Run ε α) (run₂ : α → Run ε β) : Run ε β := fun t s =>
  match run₁ t s with
  | (Except.error e, s') => (Except.error e, s')
  | (Except.ok a, s') => run₂ a t s'

/-- The instruction set of the chip, from the `Instruction` enum in
src/lib.rs (all nine variants, including the three advanced-revision-only
ones, which are `cfg`-gated in the source; the gating itself is modelled by
`Instruction.availableOn`). -/
inductive Instruction : Type
  | Reset : Instruction
  | Read : Instruction
  | Write : Instruction
  | Rts : Instruction
  | ReadStatus : Instruction
  | BitModify : Instruction
  | RxStatus : Instruction
  | ReadRxBuffer : Instruction
  | LoadTxBuffer : Instruction
  deriving Repr, DecidableEq

/-- The opcode byte of each instruction, from the discriminant values of the
`Instruction` enum in src/lib.rs. -/
def Instruction.opcode : Instruction → Nat
  | Instruction.Reset => 0b11000000
  | Instruction.Read => 0b00000011
  | Instruction.Write => 0b00000010
  | Instruction.Rts => 0b10000000
  | Instruction.ReadStatus => 0b10100000
  | Instruction.BitModify => 0b00000101
  | Instruction.RxStatus => 0b10110000
  | Instruction.ReadRxBuffer => 0b10010000
  | Instruction.LoadTxBuffer => 0b01000000

/-- Embeds the `#[cfg(any(feature = "mcp2515", feature = "mcp25625"))]` gating
of the `Instruction` enum variants in src/lib.rs: `fast` is true when one of
those features is active; `RxStatus`, `ReadRxBuffer` and `LoadTxBuffer` exist
only then, every other variant exists in every build. -/
def Instruction.availableOn (fast : Bool) : Instruction → Bool
  | Instruction.RxStatus => fast
  | Instruction.ReadRxBuffer => fast
  | Instruction.LoadTxBuffer => fast
  | _ => true

/-- The three transmit buffer slots, from the `TxBuffer` enum in src/lib.rs. -/
inductive TxBuffer : Type
  | TXB0 : TxBuffer
  | TXB1 : TxBuffer
  | TXB2 : TxBuffer
  deriving Repr, DecidableEq

/-- Discriminant of `TxBuffer` (`buf_idx as u8` in the source). -/
def TxBuffer.toNat : TxBuffer → Nat
  | TxBuffer.TXB0 => 0
  | TxBuffer.TXB1 => 1
  | TxBuffer.TXB2 => 2

/-- The two receive buffer slots, from the `RxBuffer` enum in src/lib.rs. -/
inductive RxBuffer : Type
  | RXB0 : RxBuffer
  | RXB1 : RxBuffer
  deriving Repr, DecidableEq

/-- Discriminant of `RxBuffer` (`buf_idx as u8` in the source). -/
def RxBuffer.toNat : RxBuffer → Nat
  | RxBuffer.RXB0 => 0
  | RxBuffer.RXB1 => 1

/-- Filter and mask slots with their register addresses, from the
`AcceptanceFilter` enum in src/lib.rs. -/
inductive AcceptanceFilter : Type
  | Filter0 : AcceptanceFilter
  | Filter1 : AcceptanceFilter
  | Filter2 : AcceptanceFilter
  | Filter3 : AcceptanceFilter
  | Filter4 : AcceptanceFilter
  | Filter5 : AcceptanceFilter
  | Mask0 : AcceptanceFilter
  | Mask1 : AcceptanceFilter
  deriving Repr, DecidableEq

/-- Discriminant of `AcceptanceFilter` (`filter as u8` in the source). -/
def AcceptanceFilter.addr : AcceptanceFilter → Nat
  | AcceptanceFilter.Filter0 => 0x00
  | AcceptanceFilter.Filter1 => 0x04
  | AcceptanceFilter.Filter2 => 0x08
  | AcceptanceFilter.Filter3 => 0x10
  | AcceptanceFilter.Filter4 => 0x14
  | AcceptanceFilter.Filter5 => 0x18
  | AcceptanceFilter.Mask0 => 0x20
  | AcceptanceFilter.Mask1 => 0x24

/-- Modelled from the spec: the `registers` module is not under src/. Address
of the CNF3 timing register, the start of the three consecutive CNF registers
that `set_bitrate` writes ("write timing registers ... write CNF3/CNF2/CNF1"). -/
def CNF3_ADDRESS : Nat := 0x28

/-- Modelled from the spec: address of the receive-buffer-0 control register
(`RXB0CTRL`), written by `apply_config`. -/
def RXB0CTRL_ADDRESS : Nat := 0x60

/-- Modelled from the spec: address of the receive-buffer-1 control register
(`RXB1CTRL`), written by `apply_config`. -/
def RXB1CTRL_ADDRESS : Nat := 0x70

/-- Modelled from the spec: address of the control register (`CANCTRL`) whose
top 3 bits are the operation-mode-request field. -/
def CANCTRL_ADDRESS : Nat := 0x0F

/-- Modelled from the spec: address of the interrupt-flag register (`CANINTF`)
holding the per-receive-buffer interrupt pending flags. -/
def CANINTF_ADDRESS : Nat := 0x2C

/-- The five operation modes, from the spec's driver state list
("NormalOperation, Sleep, Loopback, ListenOnly or Configuration"); the
`registers` module defining the Rust enum is not under src/. -/
inductive OperationMode : Type
  | NormalOperation : OperationMode
  | Sleep : OperationMode
  | Loopback : OperationMode
  | ListenOnly : OperationMode
  | Configuration : OperationMode
  deriving Repr, DecidableEq

/-- Modelled from the spec: the 3-bit encoding of the mode-request field. -/
def OperationMode.code : OperationMode → Nat
  | OperationMode.NormalOperation => 0
  | OperationMode.Sleep => 1
  | OperationMode.Loopback => 2
  | OperationMode.ListenOnly => 3
  | OperationMode.Configuration => 4

/-- Modelled from the spec: `CANCTRL::new().with_reqop(mode)` builds a control
register byte that is all zero except the 3-bit mode-request field in the top
three bits (the `registers` module is not under src/). -/
def CANCTRL.withReqop (mode : OperationMode) : Nat := mode.code <<< 5

/-- Modelled from the spec: the chip-side effect of the bit-modify
instruction on a register byte — bits selected by `mask` are taken from
`data`, the remaining bits keep their previous value. -/
def bitModifyApply (old mask data : Nat) : Nat :=
  (old &&& (255 ^^^ mask)) ||| (data &&& mask)

/-- Modelled from the spec: `ReadStatusResponse` flag accessor (the
`registers` module is not under src/) — receive-buffer-0 interrupt pending. -/
def rx0if (b : Nat) : Bool := Nat.testBit b 0

/-- Modelled from the spec: receive-buffer-1 interrupt pending flag of the
read-status response byte. -/
def rx1if (b : Nat) : Bool := Nat.testBit b 1

/-- Modelled from the spec: transmit-request-pending flag of slot 0 in the
read-status response byte. -/
def txreq0 (b : Nat) : Bool := Nat.testBit b 2

/-- Modelled from the spec: transmit-request-pending flag of slot 1 in the
read-status response byte. -/
def txreq1 (b : Nat) : Bool := Nat.testBit b 4

/-- Modelled from the spec: transmit-request-pending flag of slot 2 in the
read-status response byte. -/
def txreq2 (b : Nat) : Bool := Nat.testBit b 6

/-- Modelled from the spec: the `frame` module is not under src/. A CAN frame
as laid out in the chip's fixed 13-byte buffer: a 4-byte identifier header,
one data-length-code byte (low 4 bits = length), and 8 payload bytes. -/
structure CanFrame : Type where
  idHeader : List Nat
  dlcByte : Nat
  data : List Nat
  deriving Repr, DecidableEq

/-- Modelled from the spec: `frame.dlc()` reads the 4-bit length field of the
data-length-code byte. -/
def CanFrame.dlc (f : CanFrame) : Nat := f.dlcByte % 16

/-- Modelled from the spec: `frame.dlc.set_dlc(n)` overwrites the 4-bit length
field, leaving the other bits of the data-length-code byte unchanged. -/
def CanFrame.setDlc (f : CanFrame) (n : Nat) : CanFrame :=
  { f with dlcByte := f.dlcByte / 16 * 16 + n }

/-- Modelled from the spec: `frame.as_bytes()`, the fixed 13-byte on-wire
layout (identifier header, data-length-code byte, payload). -/
def CanFrame.asBytes (f : CanFrame) : List Nat := f.idHeader ++ [f.dlcByte] ++ f.data

/-- Modelled from the spec: `CanFrame::default()`, an all-zero frame. -/
def CanFrame.zeroed : CanFrame :=
  { idHeader := List.replicate 4 0, dlcByte := 0, data := List.replicate 8 0 }

/-- Modelled from the spec: the `config` module is not under src/. The
caller-assembled configuration bundle `apply_config` consumes: the three CNF
timing bytes (`cnf.into_bytes()`), the two receive-buffer-control register
bytes, the ordered filter list (slot paired with the identifier-header byte
encoding `id_header.into_bytes()`), and the final control register byte. -/
structure Config : Type where
  cnf : List Nat
  rxb0ctrl : Nat
  rxb1ctrl : Nat
  filters : List (AcceptanceFilter × List Nat)
  canctrl : Nat

/-- Embeds `MCP25xx::reset`. -/
def reset : Run ε Unit := fun t s =>
  match spiWrite [Instruction.Reset.opcode] t (stCsLow s) with
  | (Except.error e, s) => (Except.error e, s)
  | (Except.ok _, s) => (Except.ok (), stCsHigh s)

/-- Embeds `MCP25xx::read_status`; the returned value is the raw response
byte (decoded by the flag accessors `rx0if`, `txreq0`, ...). -/
def read_status : Run ε Nat := fun t s =>
  match spiWrite [Instruction.ReadStatus.opcode] t (stCsLow s) with
  | (Except.error e, s) => (Except.error e, s)
  | (Except.ok _, s) =>
    match spiTransfer 1 t s with
    | (Except.error e, s) => (Except.error e, s)
    | (Except.ok buf, s) => (Except.ok (buf.getD 0 0), stCsHigh s)

/-- Embeds `MCP25xx::rx_status` (advanced revisions only in the source; its
availability is modelled by `rxStatusAvailable`). -/
def rx_status : Run ε Nat := fun t s =>
  match spiWrite [Instruction.RxStatus.opcode] t (stCsLow s) with
  | (Except.error e, s) => (Except.error e, s)
  | (Except.ok _, s) =>
    match spiTransfer 1 t s with
    | (Except.error e, s) => (Except.error e, s)
    | (Except.ok buf, s) => (Except.ok (buf.getD 0 0), stCsHigh s)

/-- Embeds the `cfg` gating of `MCP25xx::read_status` in src/lib.rs: the
method carries no `#[cfg]` attribute, so it exists in every build. -/
def readStatusAvailable (_fast : Bool) : Bool := true

/-- Embeds the `cfg` gating of `MCP25xx::rx_status` in src/lib.rs: the method
is guarded by `#[cfg(any(feature = "mcp2515", feature = "mcp25625"))]`, so it
exists exactly in the advanced-revision builds. -/
def rxStatusAvailable (fast : Bool) : Bool := fast

/-- Embeds `MCP25xx::read_register` (the register type's fixed address is
passed explicitly). -/
def read_register (addr : Nat) : Run ε Nat := fun t s =>
  match spiWrite [Instruction.Read.opcode, addr] t (stCsLow s) with
  | (Except.error e, s) => (Except.error e, s)
  | (Except.ok _, s) =>
    match spiTransfer 1 t s with
    | (Except.error e, s) => (Except.error e, s)
    | (Except.ok reg, s) => (Except.ok (reg.getD 0 0), stCsHigh s)

/-- Embeds `MCP25xx::write_register` (register address and byte value passed
explicitly). -/
def write_register (addr v : Nat) : Run ε Unit := fun t s =>
  match spiWrite [Instruction.Write.opcode, addr, v] t (stCsLow s) with
  | (Except.error e, s) => (Except.error e, s)
  | (Except.ok _, s) => (Except.ok (), stCsHigh s)

/-- Embeds `MCP25xx::modify_register` (register address, mask and register
byte value passed explicitly; the byte order on the wire is instruction,
address, mask, data as in the source). -/
def modify_register (addr mask v : Nat) : Run ε Unit := fun t s =>
  match spiWrite [Instruction.BitModify.opcode, addr, mask, v] t (stCsLow s) with
  | (Except.error e, s) => (Except.error e, s)
  | (Except.ok _, s) => (Except.ok (), stCsHigh s)

/-- Embeds `MCP25xx::read_registers` reading `n` consecutive registers. -/
def read_registers (startAddress n : Nat) : Run ε (List Nat) := fun t s =>
  match spiWrite [Instruction.Read.opcode, startAddress] t (stCsLow s) with
  | (Except.error e, s) => (Except.error e, s)
  | (Except.ok _, s) =>
    match spiTransfer n t s with
    | (Except.error e, s) => (Except.error e, s)
    | (Except.ok buf, s) => (Except.ok buf, stCsHigh s)

/-- Embeds `MCP25xx::write_registers`. -/
def write_registers (startAddress : Nat) (data : List Nat) : Run ε Unit := fun t s =>
  match spiWrite [Instruction.Write.opcode, startAddress] t (stCsLow s) with
  | (Except.error e, s) => (Except.error e, s)
  | (Except.ok _, s) =>
    match spiWrite data t s with
    | (Except.error e, s) => (Except.error e, s)
    | (Except.ok _, s) => (Except.ok (), stCsHigh s)

/-- Embeds `MCP25xx::request_to_send`: a single byte combining the
request-to-send opcode with `1 << buf_idx`. -/
def request_to_send (bufIdx : TxBuffer) : Run ε Unit := fun t s =>
  match spiWrite [Instruction.Rts.opcode ||| (1 <<< bufIdx.toNat)] t (stCsLow s) with
  | (Except.error e, s) => (Except.error e, s)
  | (Except.ok _, s) => (Except.ok (), stCsHigh s)

/-- Embeds `MCP25xx::set_bitrate`: writes the three CNF bytes starting at the
CNF3 address. -/
def set_bitrate (cnf : List Nat) : Run ε Unit := write_registers CNF3_ADDRESS cnf

/-- Embeds `MCP25xx::set_filter`: writes the identifier-header bytes at the
address of the filter/mask slot. -/
def set_filter (filter : AcceptanceFilter) (id : List Nat) : Run ε Unit :=
  write_registers filter.addr id

/-- Embeds `MCP25xx::set_mode`: one bit-modify of the control register with
mask `0b11100000` and data `CANCTRL::new().with_reqop(mode)`. -/
def set_mode (mode : OperationMode) : Run ε Unit :=
  modify_register CANCTRL_ADDRESS 0b11100000 (CANCTRL.withReqop mode)

/-- Embeds the `for &(filter, id_header) in config.filters` loop of
`apply_config`: each filter is written in order, stopping at the first
transport error. -/
def applyFilters : List (AcceptanceFilter × List Nat) → Run ε Unit
  | [] => fun _ s => (Except.ok (), s)
  | (filter, id) :: rest => andThen (set_filter filter id) (fun _ => applyFilters rest)

/-- Embeds `MCP25xx::apply_config`: reset, timing registers, the two
receive-buffer-control registers, the filter list in order, then the final
control register; each `?` stops at the first transport error. -/
def apply_config (cfg : Config) : Run ε Unit :=
  andThen reset (fun _ =>
  andThen (set_bitrate cfg.cnf) (fun _ =>
  andThen (write_register RXB0CTRL_ADDRESS cfg.rxb0ctrl) (fun _ =>
  andThen (write_register RXB1CTRL_ADDRESS cfg.rxb1ctrl) (fun _ =>
  andThen (applyFilters cfg.filters) (fun _ =>
  write_register CANCTRL_ADDRESS cfg.canctrl)))))

/-- Embeds the `cfg`-selected pair of `send_read_rx_instruction` variants:
the fast opcode with slot-derived low bits on advanced revisions, the generic
read at `0x61 + 0x10 * buf_idx` otherwise. -/
def send_read_rx_instruction (fast : Bool) (bufIdx : RxBuffer) : Run ε Unit :=
  if fast then
    spiWrite [Instruction.ReadRxBuffer.opcode ||| (bufIdx.toNat * 2)]
  else
    spiWrite [Instruction.Read.opcode, 0x61 + 0x10 * bufIdx.toNat]

/-- Embeds the `cfg`-selected pair of `load_tx_buffer` variants: on advanced
revisions the fast opcode followed by the first `5 + dlc` bytes of the
13-byte frame encoding, otherwise a generic multi-register write of the same
bytes at `0x31 + 0x10 * buf_idx`. -/
def load_tx_buffer (fast : Bool) (bufIdx : TxBuffer) (frame : CanFrame) : Run ε Unit :=
  if fast then fun t s =>
    match spiWrite [Instruction.LoadTxBuffer.opcode ||| (bufIdx.toNat * 2)] t (stCsLow s) with
    | (Except.error e, s) => (Except.error e, s)
    | (Except.ok _, s) =>
      match spiWrite ((frame.asBytes).take (5 + frame.dlc)) t s with
      | (Except.error e, s) => (Except.error e, s)
      | (Except.ok _, s) => (Except.ok (), stCsHigh s)
  else
    write_registers (0x31 + 0x10 * bufIdx.toNat) ((frame.asBytes).take (5 + frame.dlc))

/-- The frame after the 5 received header bytes have been written over the
leading bytes of a default (all-zero) frame, as `read_rx_buffer` does through
its raw-byte view of the frame (`id_bytes`). -/
def rxHdrFrame (hdr : List Nat) : CanFrame :=
  { idHeader := hdr.take 4, dlcByte := hdr.getD 4 0, data := CanFrame.zeroed.data }

/-- The payload length `read_rx_buffer` actually transfers: the received
length code, clamped to 8 by the `if dlc > 8` branch. -/
def rxClampDlc (hdr : List Nat) : Nat :=
  if (rxHdrFrame hdr).dlc > 8 then 8 else (rxHdrFrame hdr).dlc

/-- The frame after `read_rx_buffer`'s clamping branch: the stored length
field is overwritten with 8 exactly when the received code exceeded 8. -/
def rxClampFrame (hdr : List Nat) : CanFrame :=
  if (rxHdrFrame hdr).dlc > 8 then (rxHdrFrame hdr).setDlc 8 else rxHdrFrame hdr

/-- The frame `read_rx_buffer` returns: the clamped frame with the received
payload written into the first `rxClampDlc hdr` bytes of the 8-byte payload
array (the remaining bytes keep their default zero). -/
def rxResultFrame (hdr payload : List Nat) : CanFrame :=
  { rxClampFrame hdr with
    data := payload ++ (rxClampFrame hdr).data.drop (rxClampDlc hdr) }

/-- Embeds `MCP25xx::read_rx_buffer`: sends the revision-dependent read
instruction, transfers the 5 header bytes into the frame's leading bytes,
clamps a length code above 8 down to 8, transfers that many payload bytes,
releases chip-select, and on the basic revision clears the receive interrupt
flag with an explicit bit-modify (`CANINTF::new()` is the all-zero byte). -/
def read_rx_buffer (fast : Bool) (bufIdx : RxBuffer) : Run ε CanFrame := fun t s =>
  match send_read_rx_instruction fast bufIdx t (stCsLow s) with
  | (Except.error e, s) => (Except.error e, s)
  | (Except.ok _, s) =>
    match spiTransfer 5 t s with
    | (Except.error e, s) => (Except.error e, s)
    | (Except.ok hdr, s) =>
      match spiTransfer (rxClampDlc hdr) t s with
      | (Except.error e, s) => (Except.error e, s)
      | (Except.ok payload, s) =>
        if fast then (Except.ok (rxResultFrame hdr payload), stCsHigh s)
        else
          match modify_register CANINTF_ADDRESS (1 <<< bufIdx.toNat) 0 t (stCsHigh s) with
          | (Except.error e, s) => (Except.error e, s)
          | (Except.ok _, s) => (Except.ok (rxResultFrame hdr payload), s)

/-- The non-blocking result type of the `embedded_can::Can` methods
(`nb::Error`): either the non-fatal would-retry condition or a transport
error. -/
inductive NbError (ε : Type) : Type
  | wouldBlock : NbError ε
  | other : ε → NbError ε
  deriving Repr, DecidableEq

/-- Finishes a successful transmit-slot selection in `try_transmit`: load the
frame into the chosen slot, issue request-to-send for it, return `Ok(None)`. -/
def finishTx (fast : Bool) (frame : CanFrame) (bufIdx : TxBuffer) (t : SpiBus ε)
    (s : SpiSt) : Except (NbError ε) (Option CanFrame) × SpiSt :=
  match load_tx_buffer fast bufIdx frame t s with
  | (Except.error e, s) => (Except.error (NbError.other e), s)
  | (Except.ok _, s) =>
    match request_to_send bufIdx t s with
    | (Except.error e, s) => (Except.error (NbError.other e), s)
    | (Except.ok _, s) => (Except.ok none, s)

/-- Embeds `embedded_can::Can::try_transmit` for `MCP25xx`: poll status, walk
the transmit-request flags from slot 0 upward, return `WouldBlock` when all
three are pending, otherwise load and request-to-send the first free slot. -/
def try_transmit (fast : Bool) (frame : CanFrame) (t : SpiBus ε) (s : SpiSt) :
    Except (NbError ε) (Option CanFrame) × SpiSt :=
  match read_status t s with
  | (Except.error e, s) => (Except.error (NbError.other e), s)
  | (Except.ok status, s) =>
    if txreq0 status then
      if txreq1 status then
        if txreq2 status then (Except.error NbError.wouldBlock, s)
        else finishTx fast frame TxBuffer.TXB2 t s
      else finishTx fast frame TxBuffer.TXB1 t s
    else finishTx fast frame TxBuffer.TXB0 t s

/-- Embeds `embedded_can::Can::try_receive` for `MCP25xx`: poll status, read
receive buffer 0 if its interrupt flag is pending, else buffer 1 if pending,
else report `WouldBlock`. -/
def try_receive (fast : Bool) (t : SpiBus ε) (s : SpiSt) :
    Except (NbError ε) CanFrame × SpiSt :=
  match read_status t s with
  | (Except.error e, s) => (Except.error (NbError.other e), s)
  | (Except.ok status, s) =>
    if rx0if status then
      match read_rx_buffer fast RxBuffer.RXB0 t s with
      | (Except.error e, s) => (Except.error (NbError.other e), s)
      | (Except.ok f, s) => (Except.ok f, s)
    else if rx1if status then
      match read_rx_buffer fast RxBuffer.RXB1 t s with
      | (Except.error e, s) => (Except.error (NbError.other e), s)
      | (Except.ok f, s) => (Except.ok f, s)
    else (Except.error NbError.wouldBlock, s)

/-- Event sequence of a successful `reset`. -/
def resetEvs : List Ev := [Ev.csLow, Ev.write [Instruction.Reset.opcode], Ev.csHigh]

/-- Event sequence of a successful `read_status`. -/
def readStatusEvs : List Ev :=
  [Ev.csLow, Ev.write [Instruction.ReadStatus.opcode], Ev.transfer 1, Ev.csHigh]

/-- Event sequence of a successful single-register write. -/
def writeRegEvs (addr v : Nat) : List Ev :=
  [Ev.csLow, Ev.write [Instruction.Write.opcode, addr, v], Ev.csHigh]

/-- Event sequence of a successful multi-register write. -/
def writeRegsEvs (addr : Nat) (data : List Nat) : List Ev :=
  [Ev.csLow, Ev.write [Instruction.Write.opcode, addr], Ev.write data, Ev.csHigh]

/-- Event sequence of a successful `request_to_send`. -/
def rtsEvs (bufIdx : TxBuffer) : List Ev :=
  [Ev.csLow, Ev.write [Instruction.Rts.opcode ||| (1 <<< bufIdx.toNat)], Ev.csHigh]

/-- Event sequence of a successful `load_tx_buffer` for either revision. -/
def loadTxEvs (fast : Bool) (bufIdx : TxBuffer) (frame : CanFrame) : List Ev :=
  if fast then
    [Ev.csLow, Ev.write [Instruction.LoadTxBuffer.opcode ||| (bufIdx.toNat * 2)],
      Ev.write ((frame.asBytes).take (5 + frame.dlc)), Ev.csHigh]
  else
    writeRegsEvs (0x31 + 0x10 * bufIdx.toNat) ((frame.asBytes).take (5 + frame.dlc))


/-! ## Success-path run lemmas for the driver operations -/

theorem reset_run (t : SpiBus ε) (s : SpiSt) (h : t.err s.idx = none) :
    reset t s = (Except.ok (), ⟨s.trace ++ resetEvs, s.idx + 1, false⟩) := by
  simp [reset, spiWrite, stCsLow, stCsHigh, resetEvs, h]

theorem read_status_run (t : SpiBus ε) (s : SpiSt) (h0 : t.err s.idx = none)
    (h1 : t.err (s.idx + 1) = none) :
    read_status t s =
      (Except.ok (t.rx (s.idx + 1) 0), ⟨s.trace ++ readStatusEvs, s.idx + 2, false⟩) := by
  simp [read_status, spiWrite, spiTransfer, stCsLow, stCsHigh, readStatusEvs, h0, h1]

theorem write_register_run (addr v : Nat) (t : SpiBus ε) (s : SpiSt)
    (h : t.err s.idx = none) :
    write_register addr v t s =
      (Except.ok (), ⟨s.trace ++ writeRegEvs addr v, s.idx + 1, false⟩) := by
  simp [write_register, spiWrite, stCsLow, stCsHigh, writeRegEvs, h]

theorem modify_register_run (addr mask v : Nat) (t : SpiBus ε) (s : SpiSt)
    (h : t.err s.idx = none) :
    modify_register addr mask v t s =
      (Except.ok (),
        ⟨s.trace ++ [Ev.csLow, Ev.write [Instruction.BitModify.opcode, addr, mask, v],
          Ev.csHigh], s.idx + 1, false⟩) := by
  simp [modify_register, spiWrite, stCsLow, stCsHigh, h]

theorem write_registers_run (addr : Nat) (data : List Nat) (t : SpiBus ε) (s : SpiSt)
    (h0 : t.err s.idx = none) (h1 : t.err (s.idx + 1) = none) :
    write_registers addr data t s =
      (Except.ok (), ⟨s.trace ++ writeRegsEvs addr data, s.idx + 2, false⟩) := by
  simp [write_registers, spiWrite, stCsLow, stCsHigh, writeRegsEvs, h0, h1]

theorem request_to_send_run (bufIdx : TxBuffer) (t : SpiBus ε) (s : SpiSt)
    (h : t.err s.idx = none) :
    request_to_send bufIdx t s =
      (Except.ok (), ⟨s.trace ++ rtsEvs bufIdx, s.idx + 1, false⟩) := by
  simp [request_to_send, spiWrite, stCsLow, stCsHigh, rtsEvs, h]

theorem load_tx_buffer_run (fast : Bool) (bufIdx : TxBuffer) (frame : CanFrame)
    (t : SpiBus ε) (s : SpiSt) (h0 : t.err s.idx = none) (h1 : t.err (s.idx + 1) = none) :
    load_tx_buffer fast bufIdx frame t s =
      (Except.ok (), ⟨s.trace ++ loadTxEvs fast bufIdx frame, s.idx + 2, false⟩) := by
  cases fast with
  | true =>
      simp [load_tx_buffer, spiWrite, stCsLow, stCsHigh, loadTxEvs, h0, h1]
  | false =>
      simp [load_tx_buffer, loadTxEvs,
        write_registers_run _ _ t s h0 h1]

/-- Event sequence of a successful `read_rx_buffer` whose clamped payload
length is `d`: the revision-dependent read instruction, the 5-byte header
transfer, the `d`-byte payload transfer, chip-select release, and on the
basic revision the explicit interrupt-flag-clearing bit-modify. -/
def rxReadEvs (fast : Bool) (bufIdx : RxBuffer) (d : Nat) : List Ev :=
  if fast then
    [Ev.csLow, Ev.write [Instruction.ReadRxBuffer.opcode ||| (bufIdx.toNat * 2)],
      Ev.transfer 5, Ev.transfer d, Ev.csHigh]
  else
    [Ev.csLow, Ev.write [Instruction.Read.opcode, 0x61 + 0x10 * bufIdx.toNat],
      Ev.transfer 5, Ev.transfer d, Ev.csHigh,
      Ev.csLow,
      Ev.write [Instruction.BitModify.opcode, CANINTF_ADDRESS, 1 <<< bufIdx.toNat, 0],
      Ev.csHigh]

theorem read_rx_buffer_run (fast : Bool) (bufIdx : RxBuffer) (t : SpiBus ε) (s : SpiSt)
    (h0 : t.err s.idx = none) (h1 : t.err (s.idx + 1) = none)
    (h2 : t.err (s.idx + 2) = none) (h3 : t.err (s.idx + 3) = none) :
    read_rx_buffer fast bufIdx t s =
      (Except.ok
        { idHeader := [t.rx (s.idx + 1) 0, t.rx (s.idx + 1) 1, t.rx (s.idx + 1) 2,
            t.rx (s.idx + 1) 3],
          dlcByte :=
            if 8 < t.rx (s.idx + 1) 4 % 16 then t.rx (s.idx + 1) 4 / 16 * 16 + 8
            else t.rx (s.idx + 1) 4,
          data :=
            (List.range (min (t.rx (s.idx + 1) 4 % 16) 8)).map (t.rx (s.idx + 2)) ++
              (List.replicate 8 0).drop (min (t.rx (s.idx + 1) 4 % 16) 8) },
        ⟨s.trace ++ rxReadEvs fast bufIdx (min (t.rx (s.idx + 1) 4 % 16) 8),
          s.idx + (if fast then 3 else 4), false⟩) := by
  have hrange5 : List.range 5 = [0, 1, 2, 3, 4] := by decide
  cases fast with
  | true =>
      by_cases hd : 8 < t.rx (s.idx + 1) 4 % 16
      · have hmin : min (t.rx (s.idx + 1) 4 % 16) 8 = 8 := by omega
        simp [read_rx_buffer, send_read_rx_instruction, spiWrite, spiTransfer,
          stCsLow, stCsHigh, rxReadEvs, CanFrame.dlc, CanFrame.setDlc, CanFrame.zeroed,
          rxHdrFrame, rxClampDlc, rxClampFrame, rxResultFrame,
          h0, h1, h2, hrange5, hd, hmin]
      · have hmin : min (t.rx (s.idx + 1) 4 % 16) 8 = t.rx (s.idx + 1) 4 % 16 := by omega
        simp [read_rx_buffer, send_read_rx_instruction, spiWrite, spiTransfer,
          stCsLow, stCsHigh, rxReadEvs, CanFrame.dlc, CanFrame.setDlc, CanFrame.zeroed,
          rxHdrFrame, rxClampDlc, rxClampFrame, rxResultFrame,
          h0, h1, h2, hrange5, hd, hmin]
  | false =>
      by_cases hd : 8 < t.rx (s.idx + 1) 4 % 16
      · have hmin : min (t.rx (s.idx + 1) 4 % 16) 8 = 8 := by omega
        simp [read_rx_buffer, send_read_rx_instruction, modify_register, spiWrite,
          spiTransfer, stCsLow, stCsHigh, rxReadEvs, CanFrame.dlc, CanFrame.setDlc,
          CanFrame.zeroed, rxHdrFrame, rxClampDlc, rxClampFrame, rxResultFrame,
          h0, h1, h2, h3, hrange5, hd, hmin]
      · have hmin : min (t.rx (s.idx + 1) 4 % 16) 8 = t.rx (s.idx + 1) 4 % 16 := by omega
        simp [read_rx_buffer, send_read_rx_instruction, modify_register, spiWrite,
          spiTransfer, stCsLow, stCsHigh, rxReadEvs, CanFrame.dlc, CanFrame.setDlc,
          CanFrame.zeroed, rxHdrFrame, rxClampDlc, rxClampFrame, rxResultFrame,
          h0, h1, h2, h3, hrange5, hd, hmin]

/-! ## First-failure specifications, for `apply_config` -/

/-- The k-th bus operation is the first one at or after position `i` on which
the transport fails, and it fails with error `e`. -/
def FirstErrAt (t : SpiBus ε) (i k : Nat) (e : ε) : Prop :=
  i ≤ k ∧ t.err k = some e ∧ ∀ j, i ≤ j → j < k → t.err j = none

/-- Full characterization of an operation consuming `n` bus operations with
success events `evs`: on success it appends exactly `evs` and every consumed
bus operation succeeded; on failure the returned error is the transport's
error at the first failing bus operation and the appended events are a prefix
of `evs`. -/
def StepSpec (run : Run ε α) (evs : List Ev) (n : Nat) : Prop :=
  ∀ t s,
    (∀ v s', run t s = (Except.ok v, s') →
      s'.trace = s.trace ++ evs ∧ s'.idx = s.idx + n ∧
        ∀ j, s.idx ≤ j → j < s.idx + n → t.err j = none) ∧
    (∀ e s', run t s = (Except.error e, s') →
      (∃ k, FirstErrAt t s.idx k e) ∧ ∃ rest, s.trace ++ evs = s'.trace ++ rest)

theorem stepSpec_pure : StepSpec (fun (_ : SpiBus ε) s => (Except.ok (), s)) [] 0 := by
  intro t s
  constructor
  · intro v s' h
    simp only [Prod.mk.injEq] at h
    obtain ⟨-, rfl⟩ := h
    exact ⟨by simp, by simp, by omega⟩
  · intro e s' h
    simp at h

theorem stepSpec_csWrite1 (bs : List Nat) :
    StepSpec (fun (t : SpiBus ε) s =>
      match spiWrite bs t (stCsLow s) with
      | (Except.error e, s) => (Except.error e, s)
      | (Except.ok _, s) => (Except.ok (), stCsHigh s))
      [Ev.csLow, Ev.write bs, Ev.csHigh] 1 := by
  intro t s
  constructor
  · intro v s' h
    cases he : t.err s.idx with
    | some e => simp [spiWrite, stCsLow, he] at h
    | none =>
      simp only [spiWrite, stCsLow, stCsHigh, he, Prod.mk.injEq] at h
      obtain ⟨-, rfl⟩ := h
      refine ⟨by simp, by simp, ?_⟩
      intro j hj1 hj2
      have : j = s.idx := by omega
      rw [this, he]
  · intro e s' h
    cases he : t.err s.idx with
    | some e₁ =>
      simp only [spiWrite, stCsLow, he, Prod.mk.injEq, Except.error.injEq] at h
      obtain ⟨rfl, rfl⟩ := h
      refine ⟨⟨s.idx, le_refl _, he, by omega⟩, ⟨[Ev.write bs, Ev.csHigh], by simp⟩⟩
    | none => simp [spiWrite, stCsLow, stCsHigh, he] at h

theorem stepSpec_csWrite2 (bs₁ bs₂ : List Nat) :
    StepSpec (fun (t : SpiBus ε) s =>
      match spiWrite bs₁ t (stCsLow s) with
      | (Except.error e, s) => (Except.error e, s)
      | (Except.ok _, s) =>
        match spiWrite bs₂ t s with
        | (Except.error e, s) => (Except.error e, s)
        | (Except.ok _, s) => (Except.ok (), stCsHigh s))
      [Ev.csLow, Ev.write bs₁, Ev.write bs₂, Ev.csHigh] 2 := by
  intro t s
  constructor
  · intro v s' h
    cases he : t.err s.idx with
    | some e => simp [spiWrite, stCsLow, he] at h
    | none =>
      cases he1 : t.err (s.idx + 1) with
      | some e => simp [spiWrite, stCsLow, he, he1] at h
      | none =>
        simp only [spiWrite, stCsLow, stCsHigh, he, he1, Prod.mk.injEq] at h
        obtain ⟨-, rfl⟩ := h
        refine ⟨by simp, by simp, ?_⟩
        intro j hj1 hj2
        rcases (by omega : j = s.idx ∨ j = s.idx + 1) with rfl | hj
        · exact he
        · rw [hj]; exact he1
  · intro e s' h
    cases he : t.err s.idx with
    | some e₁ =>
      simp only [spiWrite, stCsLow, he, Prod.mk.injEq, Except.error.injEq] at h
      obtain ⟨rfl, rfl⟩ := h
      refine ⟨⟨s.idx, le_refl _, he, by omega⟩,
        ⟨[Ev.write bs₁, Ev.write bs₂, Ev.csHigh], by simp⟩⟩
    | none =>
      cases he1 : t.err (s.idx + 1) with
      | some e₁ =>
        simp only [spiWrite, stCsLow, stCsHigh, he, he1, Prod.mk.injEq,
          Except.error.injEq] at h
        obtain ⟨rfl, rfl⟩ := h
        refine ⟨⟨s.idx + 1, by omega, he1, ?_⟩, ⟨[Ev.write bs₂, Ev.csHigh], by simp⟩⟩
        intro j hj1 hj2
        have : j = s.idx := by omega
        rw [this]; exact he
      | none => simp [spiWrite, stCsLow, stCsHigh, he, he1] at h

theorem stepSpec_andThen {run₁ : Run ε α} {run₂ : α → Run ε β} {evs₁ evs₂ : List Ev}
    {n₁ n₂ : Nat} (H₁ : StepSpec run₁ evs₁ n₁) (H₂ : ∀ a, StepSpec (run₂ a) evs₂ n₂) :
    StepSpec (andThen run₁ run₂) (evs₁ ++ evs₂) (n₁ + n₂) := by
  intro t s
  constructor
  · intro v s' h
    unfold andThen at h
    rcases h1 : run₁ t s with ⟨r₁, s₁⟩
    rw [h1] at h
    cases r₁ with
    | error e => simp at h
    | ok a =>
      obtain ⟨ha, hb, hc⟩ := ((H₁ t s).1) a s₁ h1
      obtain ⟨ha', hb', hc'⟩ := ((H₂ a t s₁).1) v s' h
      refine ⟨by rw [ha', ha, List.append_assoc], by omega, ?_⟩
      intro j hj1 hj2
      by_cases hj : j < s.idx + n₁
      · exact hc j hj1 hj
      · exact hc' j (by omega) (by omega)
  · intro e s' h
    unfold andThen at h
    rcases h1 : run₁ t s with ⟨r₁, s₁⟩
    rw [h1] at h
    cases r₁ with
    | error e₁ =>
      simp only [Prod.mk.injEq, Except.error.injEq] at h
      obtain ⟨rfl, rfl⟩ := h
      obtain ⟨hk, rest, hr⟩ := ((H₁ t s).2) e₁ s₁ h1
      refine ⟨hk, ⟨rest ++ evs₂, ?_⟩⟩
      rw [← List.append_assoc, hr, List.append_assoc]
    | ok a =>
      obtain ⟨ha, hb, hc⟩ := ((H₁ t s).1) a s₁ h1
      obtain ⟨⟨k, hk1, hk2, hk3⟩, rest, hr⟩ := ((H₂ a t s₁).2) e s' h
      refine ⟨⟨k, by omega, hk2, ?_⟩, ⟨rest, ?_⟩⟩
      · intro j hj1 hj2
        by_cases hj : j < s.idx + n₁
        · exact hc j hj1 hj
        · exact hk3 j (by omega) (by omega)
      · rw [ha] at hr
        rw [← List.append_assoc]
        exact hr

/-- Event sequence of a successful filter-programming loop: one
multi-register write per (filter-slot, identifier-header) pair, in the
caller-supplied list order. -/
def filterEvs : List (AcceptanceFilter × List Nat) → List Ev
  | [] => []
  | p :: rest => writeRegsEvs p.1.addr p.2 ++ filterEvs rest

theorem stepSpec_applyFilters (fs : List (AcceptanceFilter × List Nat)) :
    StepSpec (applyFilters (ε := ε) fs) (filterEvs fs) (2 * fs.length) := by
  induction fs with
  | nil => exact stepSpec_pure
  | cons p rest ih =>
      have h := stepSpec_andThen
        (stepSpec_csWrite2 (ε := ε) [Instruction.Write.opcode, p.1.addr] p.2)
        (fun _ : Unit => ih)
      have hn : 2 * (p :: rest).length = 2 + 2 * rest.length := by
        simp [List.length_cons]; ring
      rw [hn]
      exact h

theorem stepSpec_apply_config (cfg : Config) :
    StepSpec (apply_config (ε := ε) cfg)
      (resetEvs ++ (writeRegsEvs CNF3_ADDRESS cfg.cnf ++
        (writeRegEvs RXB0CTRL_ADDRESS cfg.rxb0ctrl ++
          (writeRegEvs RXB1CTRL_ADDRESS cfg.rxb1ctrl ++
            (filterEvs cfg.filters ++ writeRegEvs CANCTRL_ADDRESS cfg.canctrl)))))
      (1 + (2 + (1 + (1 + (2 * cfg.filters.length + 1))))) :=
  stepSpec_andThen (stepSpec_csWrite1 [Instruction.Reset.opcode]) (fun _ =>
  stepSpec_andThen (stepSpec_csWrite2 [Instruction.Write.opcode, CNF3_ADDRESS] cfg.cnf) (fun _ =>
  stepSpec_andThen
    (stepSpec_csWrite1 [Instruction.Write.opcode, RXB0CTRL_ADDRESS, cfg.rxb0ctrl]) (fun _ =>
  stepSpec_andThen
    (stepSpec_csWrite1 [Instruction.Write.opcode, RXB1CTRL_ADDRESS, cfg.rxb1ctrl]) (fun _ =>
  stepSpec_andThen (stepSpec_applyFilters cfg.filters) (fun _ =>
  stepSpec_csWrite1 [Instruction.Write.opcode, CANCTRL_ADDRESS, cfg.canctrl])))))

/-! ## Claim theorems -/

/-- C1: for every configuration, `apply_config` issues exactly the reset
opcode, a write of the three CNF timing registers starting at the CNF3
address, a write of RXB0CTRL, a write of RXB1CTRL, a write of each
(filter-slot, identifier-header) pair in the caller-supplied order, and
finally a write of the CANCTRL control register, and nothing else; and on a
transport failure it returns the error of the first failing bus operation,
with only a prefix of that event sequence executed. -/
theorem C1_apply_config_exact_sequence (cfg : Config) (t : SpiBus ε) (s : SpiSt) :
    ((∀ k, t.err k = none) →
      (apply_config cfg t s).1 = Except.ok () ∧
      (apply_config cfg t s).2.trace =
        s.trace ++ resetEvs ++ writeRegsEvs CNF3_ADDRESS cfg.cnf ++
          writeRegEvs RXB0CTRL_ADDRESS cfg.rxb0ctrl ++
          writeRegEvs RXB1CTRL_ADDRESS cfg.rxb1ctrl ++ filterEvs cfg.filters ++
          writeRegEvs CANCTRL_ADDRESS cfg.canctrl) ∧
    (∀ e, (apply_config cfg t s).1 = Except.error e →
      (∃ k, s.idx ≤ k ∧ t.err k = some e ∧ ∀ j, s.idx ≤ j → j < k → t.err j = none) ∧
      ∃ rest,
        s.trace ++ resetEvs ++ writeRegsEvs CNF3_ADDRESS cfg.cnf ++
            writeRegEvs RXB0CTRL_ADDRESS cfg.rxb0ctrl ++
            writeRegEvs RXB1CTRL_ADDRESS cfg.rxb1ctrl ++ filterEvs cfg.filters ++
            writeRegEvs CANCTRL_ADDRESS cfg.canctrl =
          (apply_config cfg t s).2.trace ++ rest) := by
  have H := stepSpec_apply_config (ε := ε) cfg t s
  constructor
  · intro hE
    rcases hr : apply_config cfg t s with ⟨r, s'⟩
    cases r with
    | error e =>
        obtain ⟨⟨k, hk1, hk2, hk3⟩, -⟩ := H.2 e s' hr
        rw [hE k] at hk2
        cases hk2
    | ok v =>
        obtain ⟨ha, -, -⟩ := H.1 v s' hr
        exact ⟨rfl, by simpa [List.append_assoc] using ha⟩
  · intro e her
    rcases hr : apply_config cfg t s with ⟨r, s'⟩
    rw [hr] at her
    simp only at her
    subst her
    obtain ⟨⟨k, hk1, hk2, hk3⟩, rest, hrest⟩ := H.2 e s' hr
    refine ⟨⟨k, hk1, hk2, hk3⟩, ⟨rest, ?_⟩⟩
    simp only [List.append_assoc] at hrest ⊢
    exact hrest

/-- A transport on which every bus operation succeeds and every received
byte is zero. -/
def tOk : SpiBus Nat := ⟨fun _ => none, fun _ _ => 0⟩

/-- A transport whose very first bus operation fails with error 7. -/
def tFail0 : SpiBus Nat := ⟨fun k => if k = 0 then some 7 else none, fun _ _ => 0⟩

/-- The fresh bus state: empty trace, operation index 0, chip-select idle. -/
def st0 : SpiSt := ⟨[], 0, false⟩

/-- A small concrete configuration: one filter and one mask, as in the spec's
end-to-end scenario. -/
def cfgEx : Config :=
  { cnf := [0x03, 0xb1, 0x05]
    rxb0ctrl := 0x64
    rxb1ctrl := 0x60
    filters := [(AcceptanceFilter.Filter0, [0x0f, 0x60, 0x00, 0x00]),
      (AcceptanceFilter.Mask0, [0xff, 0xe0, 0x00, 0x00])]
    canctrl := 0x00 }

theorem C1_apply_config_exact_sequence_witness :
    (∀ k, tOk.err k = none) ∧
    (apply_config cfgEx tOk st0).2.trace =
      st0.trace ++ resetEvs ++ writeRegsEvs CNF3_ADDRESS cfgEx.cnf ++
        writeRegEvs RXB0CTRL_ADDRESS cfgEx.rxb0ctrl ++
        writeRegEvs RXB1CTRL_ADDRESS cfgEx.rxb1ctrl ++ filterEvs cfgEx.filters ++
        writeRegEvs CANCTRL_ADDRESS cfgEx.canctrl :=
  ⟨fun _ => rfl,
    ((C1_apply_config_exact_sequence cfgEx tOk st0).1 (fun _ => rfl)).2⟩

/-- C6: `set_mode` issues exactly one bit-modify instruction on the control
register with mask `0b11100000` and a data byte whose mode-request field is
the requested mode; under the chip's bit-modify semantics the lower five bits
of the control register keep their previous value. -/
theorem C6_set_mode_touches_only_mode_bits (mode : OperationMode) (t : SpiBus ε)
    (s : SpiSt) (h : t.err s.idx = none) :
    set_mode mode t s =
      (Except.ok (),
        ⟨s.trace ++ [Ev.csLow,
          Ev.write [Instruction.BitModify.opcode, CANCTRL_ADDRESS, 0b11100000,
            CANCTRL.withReqop mode], Ev.csHigh], s.idx + 1, false⟩) ∧
    CANCTRL.withReqop mode >>> 5 = mode.code ∧
    ∀ old, old < 256 →
      bitModifyApply old 0b11100000 (CANCTRL.withReqop mode) % 32 = old % 32 ∧
      bitModifyApply old 0b11100000 (CANCTRL.withReqop mode) >>> 5 = mode.code := by
  refine ⟨modify_register_run CANCTRL_ADDRESS 0b11100000 (CANCTRL.withReqop mode) t s h,
    ?_, ?_⟩
  · cases mode <;> decide
  · cases mode <;> decide

theorem C6_set_mode_touches_only_mode_bits_witness :
    tOk.err st0.idx = none ∧
    set_mode OperationMode.NormalOperation tOk st0 =
      (Except.ok (),
        ⟨[Ev.csLow, Ev.write [Instruction.BitModify.opcode, CANCTRL_ADDRESS, 0b11100000,
          CANCTRL.withReqop OperationMode.NormalOperation], Ev.csHigh], 1, false⟩) :=
  ⟨rfl,
    (C6_set_mode_touches_only_mode_bits OperationMode.NormalOperation tOk st0 rfl).1⟩

/-- C7: the instruction opcode constants match the spec's wire-format table,
and `request_to_send` sends the single byte `0b10000000 ||| (1 <<< slot)`,
whose low three bits are a one-hot mask selecting exactly the chosen slot. -/
theorem C7_instruction_opcodes_and_rts (t : SpiBus ε) :
    Instruction.Reset.opcode = 0b11000000 ∧
    Instruction.Read.opcode = 0b00000011 ∧
    Instruction.Write.opcode = 0b00000010 ∧
    Instruction.Rts.opcode = 0b10000000 ∧
    Instruction.ReadStatus.opcode = 0b10100000 ∧
    Instruction.BitModify.opcode = 0b00000101 ∧
    Instruction.RxStatus.opcode = 0b10110000 ∧
    Instruction.ReadRxBuffer.opcode = 0b10010000 ∧
    Instruction.LoadTxBuffer.opcode = 0b01000000 ∧
    ∀ (bufIdx : TxBuffer) (s : SpiSt), t.err s.idx = none →
      request_to_send bufIdx t s =
        (Except.ok (),
          ⟨s.trace ++ [Ev.csLow, Ev.write [0b10000000 ||| (1 <<< bufIdx.toNat)],
            Ev.csHigh], s.idx + 1, false⟩) ∧
      (0b10000000 ||| (1 <<< bufIdx.toNat)) &&& 0b00000111 = 1 <<< bufIdx.toNat ∧
      ∀ j, j < 3 →
        (((0b10000000 ||| (1 <<< bufIdx.toNat)) : Nat).testBit j = true ↔ j = bufIdx.toNat) := by
  refine ⟨rfl, rfl, rfl, rfl, rfl, rfl, rfl, rfl, rfl, ?_⟩
  intro bufIdx s h
  refine ⟨request_to_send_run bufIdx t s h, ?_, ?_⟩
  · cases bufIdx <;> decide
  · cases bufIdx <;> decide

theorem C7_instruction_opcodes_and_rts_witness :
    tOk.err st0.idx = none ∧
    request_to_send TxBuffer.TXB1 tOk st0 =
      (Except.ok (), ⟨[Ev.csLow, Ev.write [0b10000010], Ev.csHigh], 1, false⟩) :=
  ⟨rfl,
    (((C7_instruction_opcodes_and_rts tOk).2.2.2.2.2.2.2.2.2) TxBuffer.TXB1 st0 rfl).1⟩

/-- C8 counterexample: the claim says `read_status` is absent from the
basic-revision build, but in src/lib.rs it carries no `cfg` gate, so it is
available there. -/
theorem C8_counterexample_read_status_in_basic_build :
    readStatusAvailable false = true := rfl

/-- C8 (amended): `rx_status` (and the fast-path instructions) are available
exactly on the advanced revisions, while `read_status` is available in every
build. -/
theorem C8_rx_status_gating (fast : Bool) :
    rxStatusAvailable fast = fast ∧
    readStatusAvailable fast = true ∧
    Instruction.availableOn fast Instruction.RxStatus = fast ∧
    Instruction.availableOn fast Instruction.ReadRxBuffer = fast ∧
    Instruction.availableOn fast Instruction.LoadTxBuffer = fast ∧
    Instruction.availableOn fast Instruction.ReadStatus = true := by
  cases fast <;> exact ⟨rfl, rfl, rfl, rfl, rfl, rfl⟩

theorem finishTx_run (fast : Bool) (frame : CanFrame) (bufIdx : TxBuffer) (t : SpiBus ε)
    (s : SpiSt) (h0 : t.err s.idx = none) (h1 : t.err (s.idx + 1) = none)
    (h2 : t.err (s.idx + 2) = none) :
    finishTx fast frame bufIdx t s =
      (Except.ok none,
        ⟨s.trace ++ loadTxEvs fast bufIdx frame ++ rtsEvs bufIdx, s.idx + 3, false⟩) := by
  unfold finishTx
  simp only [load_tx_buffer_run fast bufIdx frame t s h0 h1,
    request_to_send_run bufIdx t ⟨s.trace ++ loadTxEvs fast bufIdx frame, s.idx + 2, false⟩ h2]

/-- C2: `try_transmit` polls the status byte and picks the lowest-numbered
transmit slot whose transmit-request flag is clear; with all three pending it
returns the would-retry condition having issued nothing beyond the status
poll; on success it loads the chosen slot, issues request-to-send for exactly
that slot, and returns `Ok(None)`. -/
theorem C2_try_transmit_arbitration (fast : Bool) (frame : CanFrame) (t : SpiBus ε)
    (s : SpiSt) (hE : ∀ k, t.err k = none) :
    (txreq0 (t.rx (s.idx + 1) 0) = false →
      try_transmit fast frame t s =
        (Except.ok none,
          ⟨s.trace ++ readStatusEvs ++ loadTxEvs fast TxBuffer.TXB0 frame ++
            rtsEvs TxBuffer.TXB0, s.idx + 5, false⟩)) ∧
    (txreq0 (t.rx (s.idx + 1) 0) = true → txreq1 (t.rx (s.idx + 1) 0) = false →
      try_transmit fast frame t s =
        (Except.ok none,
          ⟨s.trace ++ readStatusEvs ++ loadTxEvs fast TxBuffer.TXB1 frame ++
            rtsEvs TxBuffer.TXB1, s.idx + 5, false⟩)) ∧
    (txreq0 (t.rx (s.idx + 1) 0) = true → txreq1 (t.rx (s.idx + 1) 0) = true →
      txreq2 (t.rx (s.idx + 1) 0) = false →
      try_transmit fast frame t s =
        (Except.ok none,
          ⟨s.trace ++ readStatusEvs ++ loadTxEvs fast TxBuffer.TXB2 frame ++
            rtsEvs TxBuffer.TXB2, s.idx + 5, false⟩)) ∧
    (txreq0 (t.rx (s.idx + 1) 0) = true → txreq1 (t.rx (s.idx + 1) 0) = true →
      txreq2 (t.rx (s.idx + 1) 0) = true →
      try_transmit fast frame t s =
        (Except.error NbError.wouldBlock, ⟨s.trace ++ readStatusEvs, s.idx + 2, false⟩)) := by
  have hrs := read_status_run t s (hE s.idx) (hE (s.idx + 1))
  have hfin := fun b =>
    finishTx_run fast frame b t ⟨s.trace ++ readStatusEvs, s.idx + 2, false⟩
      (hE (s.idx + 2)) (hE (s.idx + 3)) (hE (s.idx + 4))
  refine ⟨?_, ?_, ?_, ?_⟩
  · intro h0
    unfold try_transmit
    rw [hrs]
    simp only [h0, Bool.false_eq_true, if_false]
    rw [hfin TxBuffer.TXB0]
  · intro h0 h1
    unfold try_transmit
    rw [hrs]
    simp only [h0, h1, Bool.false_eq_true, if_true, if_false]
    rw [hfin TxBuffer.TXB1]
  · intro h0 h1 h2
    unfold try_transmit
    rw [hrs]
    simp only [h0, h1, h2, Bool.false_eq_true, if_true, if_false]
    rw [hfin TxBuffer.TXB2]
  · intro h0 h1 h2
    unfold try_transmit
    rw [hrs]
    simp only [h0, h1, h2, if_true]

/-- A transport on which every bus operation succeeds and the status byte
(received on bus operation 1) has all three transmit-request flags set
(bits 2, 4 and 6 of 0x54). -/
def tBusy : SpiBus Nat := ⟨fun _ => none, fun _ _ => 0x54⟩

theorem C2_try_transmit_arbitration_witness :
    txreq0 (tOk.rx (st0.idx + 1) 0) = false ∧
    try_transmit true CanFrame.zeroed tOk st0 =
      (Except.ok none,
        ⟨st0.trace ++ readStatusEvs ++ loadTxEvs true TxBuffer.TXB0 CanFrame.zeroed ++
          rtsEvs TxBuffer.TXB0, st0.idx + 5, false⟩) ∧
    txreq0 (tBusy.rx (st0.idx + 1) 0) = true ∧
    try_transmit true CanFrame.zeroed tBusy st0 =
      (Except.error NbError.wouldBlock, ⟨st0.trace ++ readStatusEvs, st0.idx + 2, false⟩) :=
  ⟨rfl,
    (C2_try_transmit_arbitration true CanFrame.zeroed tOk st0 (fun _ => rfl)).1 rfl,
    rfl,
    (C2_try_transmit_arbitration true CanFrame.zeroed tBusy st0
      (fun _ => rfl)).2.2.2 rfl rfl rfl⟩

/-- C3: `try_receive` polls the status byte, reads receive buffer 0 whenever
its pending flag is set (even if buffer 1 is also pending), reads buffer 1
only when buffer 0 is not pending, and reports the would-retry condition,
reading neither buffer, when neither flag is set. -/
theorem C3_try_receive_buffer0_priority (fast : Bool) (t : SpiBus ε) (s : SpiSt)
    (hE : ∀ k, t.err k = none) :
    (rx0if (t.rx (s.idx + 1) 0) = true →
      try_receive fast t s =
        (match read_rx_buffer fast RxBuffer.RXB0 t
            ⟨s.trace ++ readStatusEvs, s.idx + 2, false⟩ with
          | (Except.error e, s') => (Except.error (NbError.other e), s')
          | (Except.ok f, s') => (Except.ok f, s'))) ∧
    (rx0if (t.rx (s.idx + 1) 0) = false → rx1if (t.rx (s.idx + 1) 0) = true →
      try_receive fast t s =
        (match read_rx_buffer fast RxBuffer.RXB1 t
            ⟨s.trace ++ readStatusEvs, s.idx + 2, false⟩ with
          | (Except.error e, s') => (Except.error (NbError.other e), s')
          | (Except.ok f, s') => (Except.ok f, s'))) ∧
    (rx0if (t.rx (s.idx + 1) 0) = false → rx1if (t.rx (s.idx + 1) 0) = false →
      try_receive fast t s =
        (Except.error NbError.wouldBlock, ⟨s.trace ++ readStatusEvs, s.idx + 2, false⟩)) := by
  have hrs := read_status_run t s (hE s.idx) (hE (s.idx + 1))
  refine ⟨?_, ?_, ?_⟩
  · intro h0
    unfold try_receive
    rw [hrs]
    simp [h0]
  · intro h0 h1
    unfold try_receive
    rw [hrs]
    simp [h0, h1]
  · intro h0 h1
    unfold try_receive
    rw [hrs]
    simp [h0, h1]

/-- A transport on which every bus operation succeeds and the status byte has
both receive-pending flags set (bits 0 and 1 of 3). -/
def tRxBoth : SpiBus Nat := ⟨fun _ => none, fun k _ => if k = 1 then 3 else 0⟩

theorem C3_try_receive_buffer0_priority_witness :
    rx0if (tRxBoth.rx (st0.idx + 1) 0) = true ∧
    rx1if (tRxBoth.rx (st0.idx + 1) 0) = true ∧
    try_receive true tRxBoth st0 =
      (match read_rx_buffer true RxBuffer.RXB0 tRxBoth
          ⟨st0.trace ++ readStatusEvs, st0.idx + 2, false⟩ with
        | (Except.error e, s') => (Except.error (NbError.other e), s')
        | (Except.ok f, s') => (Except.ok f, s')) :=
  ⟨rfl, rfl, (C3_try_receive_buffer0_priority true tRxBoth st0 (fun _ => rfl)).1 rfl⟩

/-- The frame a fully successful `read_rx_buffer` started in state `s`
returns (see `read_rx_buffer_run`). -/
def rxRunFrame (t : SpiBus ε) (s : SpiSt) : CanFrame :=
  { idHeader := [t.rx (s.idx + 1) 0, t.rx (s.idx + 1) 1, t.rx (s.idx + 1) 2,
      t.rx (s.idx + 1) 3]
    dlcByte := if 8 < t.rx (s.idx + 1) 4 % 16 then t.rx (s.idx + 1) 4 / 16 * 16 + 8
      else t.rx (s.idx + 1) 4
    data := (List.range (min (t.rx (s.idx + 1) 4 % 16) 8)).map (t.rx (s.idx + 2)) ++
      (List.replicate 8 0).drop (min (t.rx (s.idx + 1) 4 % 16) 8) }

/-- C4: when the received 5-byte header carries a length code, `read_rx_buffer`
transfers exactly `min code 8` payload bytes, a code of 9–15 is clamped so the
returned frame stores length 8, the returned frame's length field never
exceeds 8 and its payload array keeps its fixed 8-byte size (no out-of-bounds
access is possible in the model and the run is total). -/
theorem C4_read_rx_buffer_clamps_dlc (fast : Bool) (bufIdx : RxBuffer) (t : SpiBus ε)
    (s : SpiSt) (hE : ∀ k, t.err k = none) :
    ∃ f : CanFrame,
      (read_rx_buffer fast bufIdx t s).1 = Except.ok f ∧
      f.dlc = min (t.rx (s.idx + 1) 4 % 16) 8 ∧
      f.dlc ≤ 8 ∧
      f.data.length = 8 ∧
      (8 < t.rx (s.idx + 1) 4 % 16 → f.dlc = 8) ∧
      (read_rx_buffer fast bufIdx t s).2.trace =
        s.trace ++ rxReadEvs fast bufIdx (min (t.rx (s.idx + 1) 4 % 16) 8) := by
  have H := read_rx_buffer_run fast bufIdx t s (hE s.idx) (hE (s.idx + 1))
    (hE (s.idx + 2)) (hE (s.idx + 3))
  refine ⟨rxRunFrame t s, ?_, ?_, ?_, ?_, ?_, ?_⟩
  · rw [H]
    rfl
  · by_cases hd : 8 < t.rx (s.idx + 1) 4 % 16 <;>
      simp [rxRunFrame, CanFrame.dlc, hd] <;> omega
  · by_cases hd : 8 < t.rx (s.idx + 1) 4 % 16 <;>
      simp [rxRunFrame, CanFrame.dlc, hd] <;> omega
  · simp [rxRunFrame]
  · intro hd
    simp [rxRunFrame, CanFrame.dlc, hd]
    omega
  · rw [H]

/-- A transport on which every bus operation succeeds and the received header
has length-code nibble 15 (byte 4 of the 5-byte header transfer, which is bus
operation 1). -/
def tRxLong : SpiBus Nat :=
  ⟨fun _ => none, fun k j => if k = 1 then (if j = 4 then 15 else 0) else 0⟩

theorem C4_read_rx_buffer_clamps_dlc_witness :
    (∀ k, tRxLong.err k = none) ∧
    8 < tRxLong.rx (st0.idx + 1) 4 % 16 ∧
    ∃ f : CanFrame,
      (read_rx_buffer false RxBuffer.RXB0 tRxLong st0).1 = Except.ok f ∧
      f.dlc = min (tRxLong.rx (st0.idx + 1) 4 % 16) 8 ∧
      f.dlc ≤ 8 ∧
      f.data.length = 8 ∧
      (8 < tRxLong.rx (st0.idx + 1) 4 % 16 → f.dlc = 8) ∧
      (read_rx_buffer false RxBuffer.RXB0 tRxLong st0).2.trace =
        st0.trace ++ rxReadEvs false RxBuffer.RXB0 (min (tRxLong.rx (st0.idx + 1) 4 % 16) 8) :=
  ⟨fun _ => rfl, by decide,
    C4_read_rx_buffer_clamps_dlc false RxBuffer.RXB0 tRxLong st0 (fun _ => rfl)⟩

/-- C5: with the fast-path capability, `load_tx_buffer` issues the single
opcode byte `0b01000000 ||| (2 * slot)` and `read_rx_buffer` issues
`0b10010000 ||| (2 * buffer)` with no flag-clearing bit-modify afterwards;
without it, `load_tx_buffer` is a generic write at `0x31 + 0x10 * slot`,
`read_rx_buffer` a generic read at `0x61 + 0x10 * buffer` followed by a
bit-modify of the interrupt-flag register with mask `1 <<< buffer`, data 0. -/
theorem C5_capability_gated_opcodes (bufT : TxBuffer) (bufR : RxBuffer)
    (frame : CanFrame) (t : SpiBus ε) (s : SpiSt) (hE : ∀ k, t.err k = none) :
    (load_tx_buffer true bufT frame t s).2.trace =
      s.trace ++ [Ev.csLow, Ev.write [0b01000000 ||| (bufT.toNat * 2)],
        Ev.write ((frame.asBytes).take (5 + frame.dlc)), Ev.csHigh] ∧
    (load_tx_buffer false bufT frame t s).2.trace =
      s.trace ++ [Ev.csLow,
        Ev.write [Instruction.Write.opcode, 0x31 + 0x10 * bufT.toNat],
        Ev.write ((frame.asBytes).take (5 + frame.dlc)), Ev.csHigh] ∧
    (read_rx_buffer true bufR t s).2.trace =
      s.trace ++ [Ev.csLow, Ev.write [0b10010000 ||| (bufR.toNat * 2)], Ev.transfer 5,
        Ev.transfer (min (t.rx (s.idx + 1) 4 % 16) 8), Ev.csHigh] ∧
    (read_rx_buffer false bufR t s).2.trace =
      s.trace ++ [Ev.csLow,
        Ev.write [Instruction.Read.opcode, 0x61 + 0x10 * bufR.toNat], Ev.transfer 5,
        Ev.transfer (min (t.rx (s.idx + 1) 4 % 16) 8), Ev.csHigh,
        Ev.csLow, Ev.write [Instruction.BitModify.opcode, CANINTF_ADDRESS,
          1 <<< bufR.toNat, 0], Ev.csHigh] := by
  refine ⟨?_, ?_, ?_, ?_⟩
  · rw [load_tx_buffer_run true bufT frame t s (hE s.idx) (hE (s.idx + 1))]
    simp [loadTxEvs, Instruction.opcode]
  · rw [load_tx_buffer_run false bufT frame t s (hE s.idx) (hE (s.idx + 1))]
    simp [loadTxEvs, writeRegsEvs]
  · rw [read_rx_buffer_run true bufR t s (hE s.idx) (hE (s.idx + 1)) (hE (s.idx + 2))
      (hE (s.idx + 3))]
    simp [rxReadEvs, Instruction.opcode]
  · rw [read_rx_buffer_run false bufR t s (hE s.idx) (hE (s.idx + 1)) (hE (s.idx + 2))
      (hE (s.idx + 3))]
    simp [rxReadEvs]

theorem C5_capability_gated_opcodes_witness :
    (∀ k, tOk.err k = none) ∧
    (load_tx_buffer true TxBuffer.TXB2 CanFrame.zeroed tOk st0).2.trace =
      [Ev.csLow, Ev.write [0b01000100],
        Ev.write ((CanFrame.zeroed.asBytes).take 5), Ev.csHigh] :=
  ⟨fun _ => rfl,
    (C5_capability_gated_opcodes TxBuffer.TXB2 RxBuffer.RXB1 CanFrame.zeroed tOk st0
      (fun _ => rfl)).1⟩

/-- C9: for a frame whose length field is at most 8, both `load_tx_buffer`
variants write exactly the first `5 + dlc` bytes of the 13-byte encoding, and
the slice taken at `5 + dlc` is within the encoding's bounds. -/
theorem C9_load_tx_buffer_writes_leading_bytes (fast : Bool) (bufIdx : TxBuffer)
    (frame : CanFrame) (t : SpiBus ε) (s : SpiSt) (hid : frame.idHeader.length = 4)
    (hdata : frame.data.length = 8) (hdlc : frame.dlc ≤ 8)
    (h0 : t.err s.idx = none) (h1 : t.err (s.idx + 1) = none) :
    load_tx_buffer fast bufIdx frame t s =
      (Except.ok (), ⟨s.trace ++ loadTxEvs fast bufIdx frame, s.idx + 2, false⟩) ∧
    ((frame.asBytes).take (5 + frame.dlc)).length = 5 + frame.dlc ∧
    5 + frame.dlc ≤ (frame.asBytes).length ∧
    (frame.asBytes).length = 13 := by
  have hlen : (frame.asBytes).length = 13 := by
    simp [CanFrame.asBytes, hid, hdata]
  refine ⟨load_tx_buffer_run fast bufIdx frame t s h0 h1, ?_, ?_, hlen⟩
  · rw [List.length_take, hlen]
    omega
  · rw [hlen]
    omega

theorem C9_load_tx_buffer_writes_leading_bytes_witness :
    CanFrame.zeroed.idHeader.length = 4 ∧ CanFrame.zeroed.data.length = 8 ∧
    CanFrame.zeroed.dlc ≤ 8 ∧ (∀ k, tOk.err k = none) ∧
    load_tx_buffer false TxBuffer.TXB0 CanFrame.zeroed tOk st0 =
      (Except.ok (),
        ⟨st0.trace ++ loadTxEvs false TxBuffer.TXB0 CanFrame.zeroed, st0.idx + 2, false⟩) ∧
    ((CanFrame.zeroed.asBytes).take (5 + CanFrame.zeroed.dlc)).length =
      5 + CanFrame.zeroed.dlc :=
  ⟨rfl, rfl, by decide, fun _ => rfl,
    (C9_load_tx_buffer_writes_leading_bytes false TxBuffer.TXB0 CanFrame.zeroed tOk st0
      rfl rfl (by decide) rfl rfl).1,
    (C9_load_tx_buffer_writes_leading_bytes false TxBuffer.TXB0 CanFrame.zeroed tOk st0
      rfl rfl (by decide) rfl rfl).2.1⟩

/-! ## Chip-select behaviour on the error paths -/

theorem spiWrite_cs (bs : List Nat) (t : SpiBus ε) (s : SpiSt) :
    ((spiWrite bs t s).2).cs = s.cs := by
  cases ht : t.err s.idx <;> simp [spiWrite, ht]

theorem spiTransfer_cs (n : Nat) (t : SpiBus ε) (s : SpiSt) :
    ((spiTransfer n t s).2).cs = s.cs := by
  cases ht : t.err s.idx <;> simp [spiTransfer, ht]

theorem spiWrite_trace (bs : List Nat) (t : SpiBus ε) (s : SpiSt) :
    ∃ d, ((spiWrite bs t s).2).trace = s.trace ++ d := by
  cases ht : t.err s.idx with
  | none => exact ⟨[Ev.write bs], by simp [spiWrite, ht]⟩
  | some e => exact ⟨[], by simp [spiWrite, ht]⟩

theorem spiTransfer_trace (n : Nat) (t : SpiBus ε) (s : SpiSt) :
    ∃ d, ((spiTransfer n t s).2).trace = s.trace ++ d := by
  cases ht : t.err s.idx with
  | none => exact ⟨[Ev.transfer n], by simp [spiTransfer, ht]⟩
  | some e => exact ⟨[], by simp [spiTransfer, ht]⟩

/-- An operation releases chip-select only on its success path (any transport
error leaves chip-select asserted), and it always begins by asserting
chip-select (its first appended event is `csLow`). -/
def CsSpec (run : Run ε α) : Prop :=
  ∀ t s, (∀ e s', run t s = (Except.error e, s') → s'.cs = true) ∧
    ∃ d, (run t s).2.trace = s.trace ++ Ev.csLow :: d

theorem csSpec_csWrite1 (bs : List Nat) :
    CsSpec (fun (t : SpiBus ε) s =>
      match spiWrite bs t (stCsLow s) with
      | (Except.error e, s) => (Except.error e, s)
      | (Except.ok _, s) => (Except.ok (), stCsHigh s)) := by
  intro t s
  constructor
  · intro e s' h
    cases ht : t.err s.idx with
    | some e1 =>
        simp only [spiWrite, stCsLow, ht, Prod.mk.injEq, Except.error.injEq] at h
        obtain ⟨rfl, rfl⟩ := h
        rfl
    | none => simp [spiWrite, stCsLow, stCsHigh, ht] at h
  · cases ht : t.err s.idx with
    | some e1 => exact ⟨[], by simp [spiWrite, stCsLow, ht]⟩
    | none =>
        exact ⟨[Ev.write bs, Ev.csHigh], by simp [spiWrite, stCsLow, stCsHigh, ht]⟩

theorem csSpec_csWrite2 (bs₁ bs₂ : List Nat) :
    CsSpec (fun (t : SpiBus ε) s =>
      match spiWrite bs₁ t (stCsLow s) with
      | (Except.error e, s) => (Except.error e, s)
      | (Except.ok _, s) =>
        match spiWrite bs₂ t s with
        | (Except.error e, s) => (Except.error e, s)
        | (Except.ok _, s) => (Except.ok (), stCsHigh s)) := by
  intro t s
  constructor
  · intro e s' h
    cases ht : t.err s.idx with
    | some e1 =>
        simp only [spiWrite, stCsLow, ht, Prod.mk.injEq, Except.error.injEq] at h
        obtain ⟨rfl, rfl⟩ := h
        rfl
    | none =>
        cases ht1 : t.err (s.idx + 1) with
        | some e1 =>
            simp only [spiWrite, stCsLow, ht, ht1, Prod.mk.injEq, Except.error.injEq] at h
            obtain ⟨rfl, rfl⟩ := h
            rfl
        | none => simp [spiWrite, stCsLow, stCsHigh, ht, ht1] at h
  · cases ht : t.err s.idx with
    | some e1 => exact ⟨[], by simp [spiWrite, stCsLow, ht]⟩
    | none =>
        cases ht1 : t.err (s.idx + 1) with
        | some e1 =>
            exact ⟨[Ev.write bs₁], by simp [spiWrite, stCsLow, ht, ht1]⟩
        | none =>
            exact ⟨[Ev.write bs₁, Ev.write bs₂, Ev.csHigh],
              by simp [spiWrite, stCsLow, stCsHigh, ht, ht1]⟩

theorem csSpec_writeTransfer (bs : List Nat) (n : Nat) (g : List Nat → α) :
    CsSpec (fun (t : SpiBus ε) s =>
      match spiWrite bs t (stCsLow s) with
      | (Except.error e, s) => (Except.error e, s)
      | (Except.ok _, s) =>
        match spiTransfer n t s with
        | (Except.error e, s) => (Except.error e, s)
        | (Except.ok buf, s) => (Except.ok (g buf), stCsHigh s)) := by
  intro t s
  constructor
  · intro e s' h
    cases ht : t.err s.idx with
    | some e1 =>
        simp only [spiWrite, stCsLow, ht, Prod.mk.injEq, Except.error.injEq] at h
        obtain ⟨rfl, rfl⟩ := h
        rfl
    | none =>
        cases ht1 : t.err (s.idx + 1) with
        | some e1 =>
            simp only [spiWrite, spiTransfer, stCsLow, ht, ht1, Prod.mk.injEq,
              Except.error.injEq] at h
            obtain ⟨rfl, rfl⟩ := h
            rfl
        | none => simp [spiWrite, spiTransfer, stCsLow, stCsHigh, ht, ht1] at h
  · cases ht : t.err s.idx with
    | some e1 => exact ⟨[], by simp [spiWrite, stCsLow, ht]⟩
    | none =>
        cases ht1 : t.err (s.idx + 1) with
        | some e1 =>
            exact ⟨[Ev.write bs], by simp [spiWrite, spiTransfer, stCsLow, ht, ht1]⟩
        | none =>
            exact ⟨[Ev.write bs, Ev.transfer n, Ev.csHigh],
              by simp [spiWrite, spiTransfer, stCsLow, stCsHigh, ht, ht1]⟩

theorem csSpec_modify_register (addr mask v : Nat) :
    CsSpec (modify_register (ε := ε) addr mask v) :=
  csSpec_csWrite1 [Instruction.BitModify.opcode, addr, mask, v]

theorem csSpec_load_tx_buffer (fast : Bool) (bufIdx : TxBuffer) (frame : CanFrame) :
    CsSpec (load_tx_buffer (ε := ε) fast bufIdx frame) := by
  cases fast
  · exact csSpec_csWrite2 [Instruction.Write.opcode, 0x31 + 0x10 * bufIdx.toNat]
      ((frame.asBytes).take (5 + frame.dlc))
  · exact csSpec_csWrite2 [Instruction.LoadTxBuffer.opcode ||| (bufIdx.toNat * 2)]
      ((frame.asBytes).take (5 + frame.dlc))

theorem csSpec_read_rx_buffer (fast : Bool) (bufIdx : RxBuffer) :
    CsSpec (read_rx_buffer (ε := ε) fast bufIdx) := by
  intro t s
  have hsend_cs : ∀ s₁ : SpiSt,
      ((send_read_rx_instruction (ε := ε) fast bufIdx t s₁).2).cs = s₁.cs := by
    intro s₁
    cases fast
    · exact spiWrite_cs _ t s₁
    · exact spiWrite_cs _ t s₁
  have hsend_tr : ∀ s₁ : SpiSt,
      ∃ d, ((send_read_rx_instruction (ε := ε) fast bufIdx t s₁).2).trace =
        s₁.trace ++ d := by
    intro s₁
    cases fast
    · exact spiWrite_trace _ t s₁
    · exact spiWrite_trace _ t s₁
  constructor
  · intro e s' h
    unfold read_rx_buffer at h
    rcases h1 : send_read_rx_instruction fast bufIdx t (stCsLow s) with ⟨r1, s1⟩
    rw [h1] at h
    have hc1 : s1.cs = true := by
      have hx := hsend_cs (stCsLow s)
      rw [h1] at hx
      simpa [stCsLow] using hx
    cases r1 with
    | error e1 =>
        simp only [Prod.mk.injEq, Except.error.injEq] at h
        obtain ⟨rfl, rfl⟩ := h
        exact hc1
    | ok u =>
        dsimp only at h
        rcases h2 : spiTransfer 5 t s1 with ⟨r2, s2⟩
        rw [h2] at h
        have hc2 : s2.cs = true := by
          have hx := spiTransfer_cs 5 t s1
          rw [h2] at hx
          exact hx.trans hc1
        cases r2 with
        | error e2 =>
            simp only [Prod.mk.injEq, Except.error.injEq] at h
            obtain ⟨rfl, rfl⟩ := h
            exact hc2
        | ok hdr =>
            dsimp only at h
            rcases h3 : spiTransfer (rxClampDlc hdr) t s2 with ⟨r3, s3⟩
            rw [h3] at h
            have hc3 : s3.cs = true := by
              have hx := spiTransfer_cs (rxClampDlc hdr) t s2
              rw [h3] at hx
              exact hx.trans hc2
            cases r3 with
            | error e3 =>
                simp only [Prod.mk.injEq, Except.error.injEq] at h
                obtain ⟨rfl, rfl⟩ := h
                exact hc3
            | ok payload =>
                dsimp only at h
                cases fast with
                | true => simp at h
                | false =>
                    simp only [Bool.false_eq_true, if_false] at h
                    rcases h4 : modify_register CANINTF_ADDRESS (1 <<< bufIdx.toNat) 0 t
                        (stCsHigh s3) with ⟨r4, s4⟩
                    rw [h4] at h
                    cases r4 with
                    | error e4 =>
                        simp only [Prod.mk.injEq, Except.error.injEq] at h
                        obtain ⟨rfl, rfl⟩ := h
                        exact (csSpec_modify_register CANINTF_ADDRESS
                          (1 <<< bufIdx.toNat) 0 t (stCsHigh s3)).1 e4 s4 h4
                    | ok u4 => simp at h
  · unfold read_rx_buffer
    rcases h1 : send_read_rx_instruction fast bufIdx t (stCsLow s) with ⟨r1, s1⟩
    have ht1 : ∃ d, s1.trace = s.trace ++ Ev.csLow :: d := by
      obtain ⟨d, hd⟩ := hsend_tr (stCsLow s)
      rw [h1] at hd
      exact ⟨d, by simpa [stCsLow] using hd⟩
    cases r1 with
    | error e1 => exact ht1
    | ok u =>
        dsimp only
        rcases h2 : spiTransfer 5 t s1 with ⟨r2, s2⟩
        have ht2 : ∃ d, s2.trace = s.trace ++ Ev.csLow :: d := by
          obtain ⟨d2, hd2⟩ := spiTransfer_trace 5 t s1
          rw [h2] at hd2
          obtain ⟨d, hd⟩ := ht1
          exact ⟨d ++ d2, by rw [hd2, hd]; simp⟩
        cases r2 with
        | error e2 => exact ht2
        | ok hdr =>
            dsimp only
            rcases h3 : spiTransfer (rxClampDlc hdr) t s2 with ⟨r3, s3⟩
            have ht3 : ∃ d, s3.trace = s.trace ++ Ev.csLow :: d := by
              obtain ⟨d3, hd3⟩ := spiTransfer_trace (rxClampDlc hdr) t s2
              rw [h3] at hd3
              obtain ⟨d, hd⟩ := ht2
              exact ⟨d ++ d3, by rw [hd3, hd]; simp⟩
            cases r3 with
            | error e3 => exact ht3
            | ok payload =>
                dsimp only
                have ht4 : ∃ d, (stCsHigh s3).trace = s.trace ++ Ev.csLow :: d := by
                  obtain ⟨d, hd⟩ := ht3
                  exact ⟨d ++ [Ev.csHigh], by rw [stCsHigh]; simp [hd]⟩
                cases fast with
                | true => simpa using ht4
                | false =>
                    simp only [Bool.false_eq_true, if_false]
                    rcases h4 : modify_register CANINTF_ADDRESS (1 <<< bufIdx.toNat) 0 t
                        (stCsHigh s3) with ⟨r4, s4⟩
                    have ht5 : ∃ d, s4.trace = s.trace ++ Ev.csLow :: d := by
                      obtain ⟨d5, hd5⟩ := (csSpec_modify_register CANINTF_ADDRESS
                        (1 <<< bufIdx.toNat) 0 t (stCsHigh s3)).2
                      rw [h4] at hd5
                      obtain ⟨d, hd⟩ := ht4
                      exact ⟨d ++ Ev.csLow :: d5, by rw [hd5, hd]; simp⟩
                    cases r4 with
                    | error e4 => exact ht5
                    | ok u4 => exact ht5

/-- C10: every SPI-traffic operation of the driver releases chip-select only
on its success path — if any `spi_write` or `spi_transfer` inside it fails,
the operation returns the transport error with chip-select still asserted —
and every such operation unconditionally begins by asserting chip-select, so
after a failure the next operation re-asserts an already-asserted line. -/
theorem C10_cs_released_only_on_success :
    CsSpec (read_status (ε := ε)) ∧
    CsSpec (rx_status (ε := ε)) ∧
    CsSpec (reset (ε := ε)) ∧
    (∀ addr, CsSpec (read_register (ε := ε) addr)) ∧
    (∀ addr v, CsSpec (write_register (ε := ε) addr v)) ∧
    (∀ addr mask v, CsSpec (modify_register (ε := ε) addr mask v)) ∧
    (∀ addr n, CsSpec (read_registers (ε := ε) addr n)) ∧
    (∀ addr data, CsSpec (write_registers (ε := ε) addr data)) ∧
    (∀ bufIdx, CsSpec (request_to_send (ε := ε) bufIdx)) ∧
    (∀ fast bufIdx frame, CsSpec (load_tx_buffer (ε := ε) fast bufIdx frame)) ∧
    (∀ fast bufIdx, CsSpec (read_rx_buffer (ε := ε) fast bufIdx)) :=
  ⟨csSpec_writeTransfer [Instruction.ReadStatus.opcode] 1 (fun buf => buf.getD 0 0),
    csSpec_writeTransfer [Instruction.RxStatus.opcode] 1 (fun buf => buf.getD 0 0),
    csSpec_csWrite1 [Instruction.Reset.opcode],
    fun addr => csSpec_writeTransfer [Instruction.Read.opcode, addr] 1
      (fun reg => reg.getD 0 0),
    fun addr v => csSpec_csWrite1 [Instruction.Write.opcode, addr, v],
    fun addr mask v => csSpec_modify_register addr mask v,
    fun addr n => csSpec_writeTransfer [Instruction.Read.opcode, addr] n (fun buf => buf),
    fun addr data => csSpec_csWrite2 [Instruction.Write.opcode, addr] data,
    fun bufIdx => csSpec_csWrite1 [Instruction.Rts.opcode ||| (1 <<< bufIdx.toNat)],
    fun fast bufIdx frame => csSpec_load_tx_buffer fast bufIdx frame,
    fun fast bufIdx => csSpec_read_rx_buffer fast bufIdx⟩

theorem C10_cs_released_only_on_success_witness :
    read_status tFail0 st0 = (Except.error 7, ⟨[Ev.csLow], 1, true⟩) ∧
    (⟨[Ev.csLow], 1, true⟩ : SpiSt).cs = true :=
  ⟨rfl,
    ((C10_cs_released_only_on_success (ε := Nat)).1 tFail0 st0).1 7
      ⟨[Ev.csLow], 1, true⟩ rfl⟩
